import Mathlib

/-!
# UberOrSubway: the decision core of `src/index.js`

A shallow embedding of the resolver, the ride-hail duration estimate, the
concurrent Resolve procedure and the step workflow of `src/index.js`.

Numbers: a JavaScript number is modelled by a rational (`ℚ`).  Every finite
double is a rational and `<`, `<=`, `!x` on finite doubles agree with the
rational reading; `NaN` and the infinities are outside the model.  A value
of JSDoc type `Number|null` is an `Option ℚ`, `none` being `null`.
-/

namespace UberOrSubway

/-! ## Values -/

/-- The enum `TransportType` of the source. -/
inductive TransportType where
  | UBER
  | SUBWAY
  deriving DecidableEq

/-- JavaScript `ToNumber` on a `Number|null`: `null` converts to `0`. -/
def toNumber (x : Option ℚ) : ℚ :=
  match x with
  | none => 0
  | some v => v

/-- JavaScript `!x` on a `Number|null`: true for `null` and for `0`. -/
def jsNot (x : Option ℚ) : Bool :=
  match x with
  | none => true
  | some v => decide (v = 0)

/-- JavaScript `a <= b` on `Number|null` operands (both sides go through `ToNumber`). -/
def jsLe (a b : Option ℚ) : Bool := decide (toNumber a ≤ toNumber b)

/-- JavaScript `a < b` on `Number|null` operands. -/
def jsLt (a b : Option ℚ) : Bool := decide (toNumber a < toNumber b)

/-! ## The resolver -/

/-- The function `calculateOptimalTransport` of the source; `none` is the `null` result. -/
def calculateOptimalTransport (subwayRouteDuration uberRouteDuration : Option ℚ) :
    Option TransportType :=
  if subwayRouteDuration ≠ none then
    if jsNot uberRouteDuration || jsLe subwayRouteDuration uberRouteDuration then
      some TransportType.SUBWAY
    else
      some TransportType.UBER
  else if uberRouteDuration ≠ none then
    if jsNot subwayRouteDuration || jsLt uberRouteDuration subwayRouteDuration then
      some TransportType.UBER
    else
      some TransportType.SUBWAY
  else
    none

/-! ## The ride-hail duration estimate -/

/-- One element of the `prices` array of the ride-hail price response. -/
structure Price where
  duration : ℚ
  deriving DecidableEq

/-- One element of the `times` array of the ride-hail time response. -/
structure Time where
  estimate : ℚ
  deriving DecidableEq

/-- The body of the callbacks passed to `forEach` in `calculateUberRouteDuration`:
`avg = avg == null ? duration : ((avg + duration) / 2)`. -/
def avgStep (avg : Option ℚ) (duration : ℚ) : Option ℚ :=
  match avg with
  | none => some duration
  | some a => some ((a + duration) / 2)

/-- The function `calculateUberRouteDuration` of the source.  Both accumulators start
at `null`; the final `+` converts a `null` operand to `0`. -/
def calculateUberRouteDuration (prices : List Price) (times : List Time) : ℚ :=
  let avgRouteDuration : Option ℚ :=
    prices.foldl (fun avg price => avgStep avg price.duration) none
  let avgArrivalToUserDuration : Option ℚ :=
    times.foldl (fun avg time => avgStep avg time.estimate) none
  toNumber avgRouteDuration + toNumber avgArrivalToUserDuration

/-- The running pairwise average as the specification words it, on a non-empty
sequence: the first value sets the estimate, each later value `v` replaces the
estimate `e` by `(e + v) / 2`, in list order.  On the empty sequence the estimate
stays undefined. -/
def runningAverage : List ℚ → Option ℚ
  | [] => none
  | v :: later => some (later.foldl (fun e w => (e + w) / 2) v)

/-! ## Provider responses

The routing service, the two ride-hail endpoints and the promise library are
outside the repository.  A provider is a function from the request the code
builds to the answer it eventually delivers; a promise is represented by its
settled outcome (`Except`), and `Promise.all` fulfils with all values or
rejects.  Every request is taken to settle.  When several members reject,
JavaScript keeps the reason that arrived first; the model keeps the first in array
order, and no theorem below depends on which of several reasons is kept. -/

/-- A point `google.maps.LatLng`. -/
structure LatLng where
  lat : ℚ
  lng : ℚ
  deriving DecidableEq

/-- The enum `google.maps.DirectionsStatus`. -/
inductive DirectionsStatus where
  | OK
  | NOT_FOUND
  | ZERO_RESULTS
  | MAX_WAYPOINTS_EXCEEDED
  | INVALID_REQUEST
  | OVER_QUERY_LIMIT
  | REQUEST_DENIED
  | UNKNOWN_ERROR
  deriving DecidableEq

/-- The object `duration` of a leg; `value` is in seconds. -/
structure Duration where
  value : ℚ
  deriving DecidableEq

/-- A leg of a route; the routing API documents `duration` as optional. -/
structure DirectionsLeg where
  duration : Option Duration
  deriving DecidableEq

/-- A route of a directions result. -/
structure DirectionsRoute where
  legs : List DirectionsLeg
  deriving DecidableEq

/-- The `result` argument of the routing callback. -/
structure DirectionsResult where
  routes : List DirectionsRoute
  deriving DecidableEq

/-- The object `{status, result}` that `getSubwayRoute` and `getUberRoute` resolve
with; `result` is `null` (`none`) when the service delivers none. -/
structure DirectionsResponse where
  status : DirectionsStatus
  result : Option DirectionsResult
  deriving DecidableEq

/-- The enum `google.maps.TravelMode`, the two members the code uses. -/
inductive TravelMode where
  | TRANSIT
  | DRIVING
  deriving DecidableEq

/-- The enum `google.maps.TransitMode`, the member the code uses. -/
inductive TransitMode where
  | SUBWAY
  deriving DecidableEq

/-- The `request` object handed to `directionsService.route`. -/
structure DirectionsRequest where
  origin : LatLng
  destination : LatLng
  travelMode : TravelMode
  transitOptions : Option (List TransitMode)
  deriving DecidableEq

/-- The object `priceQuery` of `getUberRouteDuration`. -/
structure PriceQuery where
  start_latitude : ℚ
  start_longitude : ℚ
  end_latitude : ℚ
  end_longitude : ℚ
  deriving DecidableEq

/-- The object `timeQuery` of `getUberRouteDuration`. -/
structure TimeQuery where
  start_latitude : ℚ
  start_longitude : ℚ
  deriving DecidableEq

/-- The reasons a promise of the Resolve procedure rejects with, one per throw site. -/
inductive Rejection where
  /-- The `throw new Error(status)` of `subwayRoutePromise`. -/
  | subwayStatus
  /-- The `throw new Error(response.status)` of `uberRoutePromise`. -/
  | uberRouteStatus (status : DirectionsStatus)
  /-- The `throw new Error(priceResponse.statusText)`. -/
  | priceStatus (statusText : String)
  /-- The `throw new Error(timeResponse.statusText)`. -/
  | timeStatus (statusText : String)
  /-- A property read on `undefined` or `null`. -/
  | typeError
  /-- A rejection of `fetch` or of `json()` itself. -/
  | provider (reason : String)
  deriving DecidableEq

/-- The parsed body of the price endpoint. -/
structure PriceBody where
  prices : List Price
  deriving DecidableEq

/-- The parsed body of the time endpoint. -/
structure TimeBody where
  times : List Time
  deriving DecidableEq

/-- A `fetch` response: HTTP status, status text and the outcome of `json()`. -/
structure HttpResponse (β : Type) where
  status : Nat
  statusText : String
  json : Except Rejection β

/-- The external providers: the routing service and the two ride-hail endpoints
(the outcome of each `fetch` promise). -/
structure Providers where
  route : DirectionsRequest → DirectionsResponse
  fetchPrice : PriceQuery → Except Rejection (HttpResponse PriceBody)
  fetchTime : TimeQuery → Except Rejection (HttpResponse TimeBody)

/-- The outcome of `Promise.all` on two promises. -/
def promiseAll2 {α β : Type} (a : Except Rejection α) (b : Except Rejection β) :
    Except Rejection (α × β) :=
  match a, b with
  | .error e, _ => .error e
  | .ok _, .error e => .error e
  | .ok x, .ok y => .ok (x, y)

/-- The outcome of `Promise.all` on three promises. -/
def promiseAll3 {α β γ : Type} (a : Except Rejection α) (b : Except Rejection β)
    (c : Except Rejection γ) : Except Rejection (α × β × γ) :=
  match a, b, c with
  | .error e, _, _ => .error e
  | .ok _, .error e, _ => .error e
  | .ok _, .ok _, .error e => .error e
  | .ok x, .ok y, .ok z => .ok (x, y, z)

/-- The function `getUberRouteDuration` of the source. -/
def getUberRouteDuration (env : Providers) (origin destination : LatLng) :
    Except Rejection (Option ℚ) :=
  let priceQuery : PriceQuery :=
    { start_latitude := origin.lat, start_longitude := origin.lng,
      end_latitude := destination.lat, end_longitude := destination.lng }
  let timeQuery : TimeQuery :=
    { start_latitude := origin.lat, start_longitude := origin.lng }
  match promiseAll2 (env.fetchPrice priceQuery) (env.fetchTime timeQuery) with
  | .error e => .error e
  | .ok (priceResponse, timeResponse) =>
    if priceResponse.status ≠ 200 then
      .error (Rejection.priceStatus priceResponse.statusText)
    else if timeResponse.status ≠ 200 then
      .error (Rejection.timeStatus timeResponse.statusText)
    else
      match promiseAll2 priceResponse.json timeResponse.json with
      | .error e => .error e
      | .ok (priceBody, timeBody) =>
        if priceBody.prices.length = 0 ∨ timeBody.times.length = 0 then
          .ok none
        else
          .ok (some (calculateUberRouteDuration priceBody.prices timeBody.times))

/-- The function `getSubwayRoute` of the source; its promise only ever resolves. -/
def getSubwayRoute (env : Providers) (origin destination : LatLng) : DirectionsResponse :=
  env.route
    { origin := origin, destination := destination, travelMode := TravelMode.TRANSIT,
      transitOptions := some [TransitMode.SUBWAY] }

/-- The function `getUberRoute` of the source; its promise only ever resolves. -/
def getUberRoute (env : Providers) (origin destination : LatLng) : DirectionsResponse :=
  env.route
    { origin := origin, destination := destination, travelMode := TravelMode.DRIVING,
      transitOptions := none }

/-- The read `response.result.routes[0].legs[0].duration.value`; each missing link
is a `TypeError`. -/
def firstLegDuration (response : DirectionsResponse) : Except Rejection ℚ :=
  match response.result with
  | none => .error Rejection.typeError
  | some result =>
    match result.routes with
    | [] => .error Rejection.typeError
    | route :: _ =>
      match route.legs with
      | [] => .error Rejection.typeError
      | leg :: _ =>
        match leg.duration with
        | none => .error Rejection.typeError
        | some duration => .ok duration.value

/-! ## The workflow state

The module-level variables, what the page shows, and the callbacks that are
registered and not yet called.  A promise of the promise library settles once:
a later `resolve` is ignored, and the callbacks passed to `then` run before
the next event is delivered. -/

/-- The object `ensureOptimalTransport` resolves with. -/
structure Verdict where
  subwayDuration : Option ℚ
  uberDuration : Option ℚ
  optimalTransport : Option TransportType
  deriving DecidableEq

/-- The content of the `msg` node.  `verdict` holds the three arguments of
`showVerdict`, which determine its text; it is the only content with a Reset
button. -/
inductive Message where
  | blank
  | askOrigin
  | askDestination
  | thinking
  | verdict (subwayDuration uberDuration : Option ℚ) (optimalTransport : Option TransportType)
  deriving DecidableEq

/-- The state of the promise created by `getUserLocation`. -/
inductive PromiseState where
  | pending
  | fulfilled (location : LatLng)
  deriving DecidableEq

/-- The three step functions of the source. -/
inductive Step where
  | step1
  | step2
  | finish
  deriving DecidableEq

/-- The state of the page. -/
structure World where
  /-- The variable `userOrigin`; `none` is `undefined`. -/
  userOrigin : Option LatLng
  /-- The variable `userDestination`; `none` is `undefined`. -/
  userDestination : Option LatLng
  /-- Whether `directionsRenderer` is attached to the map. -/
  rendererOnMap : Bool
  /-- The directions last given to `directionsRenderer.setDirections`. -/
  rendererDirections : Option DirectionsResult
  /-- The centre of the map. -/
  mapCenter : LatLng
  /-- The markers created by `markUserLocation`, oldest first. -/
  markers : List LatLng
  /-- The content of the `msg` node. -/
  msg : Message
  /-- Whether the `error` node is shown. -/
  errorShown : Bool
  /-- The errors written by `console.log`, oldest first. -/
  console : List Rejection
  /-- Whether `navigator.geolocation` is there. -/
  hasGeolocation : Bool
  /-- The promise of `getUserLocation`. -/
  originPromise : PromiseState
  /-- Whether the click listener of `getUserLocation` is attached to the map. -/
  originListener : Bool
  /-- Whether the callback given to `getCurrentPosition` is still to be called. -/
  geolocationPending : Bool
  /-- The number of click listeners of `getUserDestination` attached to the map,
  each with its own pending promise. -/
  destinationListeners : Nat
  /-- The calls of `ensureOptimalTransport` whose requests are in flight, with
  their `(origin, destination)` arguments, oldest first. -/
  resolving : List (LatLng × LatLng)
  /-- The number of exceptions and rejections nothing handles. -/
  unhandled : Nat
  deriving DecidableEq

/-- The function `showMsg` of the source. -/
def showMsg (msg : Message) (w : World) : World :=
  { w with msg := msg }

/-- The function `showError` of the source. -/
def showError (w : World) : World :=
  { w with errorShown := true }

/-- The function `markUserLocation` of the source. -/
def markUserLocation (location : LatLng) (w : World) : World :=
  { w with mapCenter := location, markers := w.markers ++ [location] }

/-- The function `showVerdict` of the source. -/
def showVerdict (subwayDuration uberDuration : Option ℚ)
    (optimalTransport : Option TransportType) (w : World) : World :=
  showMsg (Message.verdict subwayDuration uberDuration optimalTransport) w

/-- The constant `subwayRoutePromise` of `ensureOptimalTransport`. -/
def subwayRoutePromise (env : Providers) (origin destination : LatLng) :
    Except Rejection DirectionsResponse :=
  let response := getSubwayRoute env origin destination
  if response.status ≠ DirectionsStatus.OK then .error Rejection.subwayStatus
  else .ok response

/-- The constant `uberRoutePromise` of `ensureOptimalTransport`. -/
def uberRoutePromise (env : Providers) (origin destination : LatLng) :
    Except Rejection DirectionsResponse :=
  let response := getUberRoute env origin destination
  if response.status ≠ DirectionsStatus.OK then
    .error (Rejection.uberRouteStatus response.status)
  else .ok response

/-- The `Promise.all` of `ensureOptimalTransport`: the join of the two route promises
and of the ride-hail estimate. -/
def ensureOptimalTransportAll (env : Providers) (origin destination : LatLng) :
    Except Rejection (DirectionsResponse × DirectionsResponse × Option ℚ) :=
  promiseAll3 (subwayRoutePromise env origin destination)
    (uberRoutePromise env origin destination) (getUberRouteDuration env origin destination)

/-- The callback `ensureOptimalTransport` passes to `then` on its join; it holds the
only call of `calculateOptimalTransport` in the source. -/
def ensureOptimalTransportThen
    (joined : DirectionsResponse × DirectionsResponse × Option ℚ) (w : World) :
    World × Except Rejection Verdict :=
  match joined with
  | (subwayRouteResponse, uberRouteResponse, uberRouteDuration) =>
    match firstLegDuration subwayRouteResponse with
    | .error e => (w, .error e)
    | .ok value =>
      let subwayRouteDuration : Option ℚ := some value
      let optimalTransport := calculateOptimalTransport subwayRouteDuration uberRouteDuration
      let w1 : World := { w with rendererOnMap := true }
      let w2 : World :=
        match optimalTransport with
        | some TransportType.UBER => { w1 with rendererDirections := uberRouteResponse.result }
        | some TransportType.SUBWAY =>
          { w1 with rendererDirections := subwayRouteResponse.result }
        | none => w1
      (w2, .ok { subwayDuration := subwayRouteDuration, uberDuration := uberRouteDuration,
                 optimalTransport := optimalTransport })

/-- The function `ensureOptimalTransport` of the source, given the providers that
answer its requests: the world after the callback of the join, if it runs, and the
outcome of the returned promise. -/
def ensureOptimalTransport (env : Providers) (origin destination : LatLng) (w : World) :
    World × Except Rejection Verdict :=
  match ensureOptimalTransportAll env origin destination with
  | .error e => (w, .error e)
  | .ok joined => ensureOptimalTransportThen joined w

/-- The function `getUserLocation` of the source, up to the return of its promise:
the click listener is attached and the position is requested when
`navigator.geolocation` is there. -/
def getUserLocation (w : World) : World :=
  { w with originPromise := PromiseState.pending, originListener := true,
           geolocationPending := w.hasGeolocation }

/-- The function `getUserDestination` of the source, up to the return of its promise. -/
def getUserDestination (w : World) : World :=
  { w with destinationListeners := w.destinationListeners + 1 }

/-- The function `step1` of the source, up to the return of its promise. -/
def step1 (w : World) : World :=
  getUserLocation (showMsg Message.askOrigin w)

/-- The function `step2` of the source, up to the return of its promise. -/
def step2 (w : World) : World :=
  getUserDestination (showMsg Message.askDestination { w with rendererOnMap := false })

/-- The function `finish` of the source, up to the return of its promise.  The call
`ensureOptimalTransport(userOrigin, userDestination)` reads `origin.lat()` before
it returns, so an `undefined` argument is an exception nothing handles. -/
def finish (w : World) : World :=
  let w1 := showMsg Message.thinking w
  match w1.userOrigin, w1.userDestination with
  | some origin, some destination =>
    { w1 with resolving := w1.resolving ++ [(origin, destination)] }
  | _, _ => { w1 with unhandled := w1.unhandled + 1 }

/-- The function `gotoStep` of the source, up to the return of the step.  The
argument `none` is `undefined`, what the promise of `finish` resolves with:
calling it is a `TypeError` inside a `then` callback, which nothing handles. -/
def gotoStep (step : Option Step) (w : World) : World :=
  match step with
  | some Step.step1 => step1 w
  | some Step.step2 => step2 w
  | some Step.finish => finish w
  | none => { w with unhandled := w.unhandled + 1 }

/-- The rejection callback of `gotoStep`: `console.log(error); showError()`. -/
def gotoStepRejected (error : Rejection) (w : World) : World :=
  showError { w with console := w.console ++ [error] }

/-- The `then` callback of `step1`, followed by the fulfilment callback of `gotoStep`. -/
def step1Then (location : LatLng) (w : World) : World :=
  gotoStep (some Step.step2) (markUserLocation location { w with userOrigin := some location })

/-- The `then` callback of `step2`, followed by the fulfilment callback of `gotoStep`. -/
def step2Then (location : LatLng) (w : World) : World :=
  gotoStep (some Step.finish) { w with userDestination := some location }

/-- The `then` callback of `finish`, followed by the fulfilment callback of `gotoStep`,
which receives `undefined`. -/
def finishThen (response : Verdict) (w : World) : World :=
  gotoStep none
    (showVerdict response.subwayDuration response.uberDuration response.optimalTransport w)

/-- The `resolve` of the promise of `getUserLocation`: the first call fulfils the
promise and runs the callback of `step1`; a later call does nothing. -/
def resolveUserLocation (location : LatLng) (w : World) : World :=
  match w.originPromise with
  | PromiseState.pending =>
    step1Then location { w with originPromise := PromiseState.fulfilled location }
  | PromiseState.fulfilled _ => w

/-- The click listener of `getUserLocation`. -/
def onOriginClick (latLng : LatLng) (w : World) : World :=
  resolveUserLocation latLng { w with originListener := false }

/-- The callback `getUserLocation` gives to `getCurrentPosition`. -/
def onCurrentPosition (latitude longitude : ℚ) (w : World) : World :=
  resolveUserLocation { lat := latitude, lng := longitude } { w with originListener := false }

/-- The click listener of `getUserDestination`; its promise is its own, so `resolve`
always fulfils it and runs the callback of `step2`. -/
def onDestinationClick (latLng : LatLng) (w : World) : World :=
  step2Then latLng { w with destinationListeners := w.destinationListeners - 1 }

/-- The click listener of the Reset button created by `showVerdict`. -/
def onResetClick (w : World) : World :=
  gotoStep (some Step.step2) w

/-- The settling of one call `ensureOptimalTransport(origin, destination)` made by
`finish`, with the callbacks that follow it. -/
def finishSettled (env : Providers) (origin destination : LatLng) (w : World) : World :=
  match ensureOptimalTransport env origin destination w with
  | (w1, .ok response) => finishThen response w1
  | (w1, .error e) => gotoStepRejected e w1

/-- What the page can receive. -/
inductive Event where
  /-- A click on the map at `latLng`. -/
  | mapClick (latLng : LatLng)
  /-- The device delivers the position asked by `getCurrentPosition`. -/
  | currentPosition (latitude longitude : ℚ)
  /-- A click on the Reset button. -/
  | resetClick
  /-- The requests of the oldest call of `ensureOptimalTransport` in flight are
  answered by `env`. -/
  | settle (env : Providers)

/-- A click reaches `n` listeners of `getUserDestination`. -/
def destinationClicks (latLng : LatLng) : Nat → World → World
  | 0, w => w
  | n + 1, w => destinationClicks latLng n (onDestinationClick latLng w)

/-- The delivery of one event to the callbacks registered for it.  A map click
reaches the listeners attached when it happens, the one of `getUserLocation` first
(in a state reached from `bootstrap` at most one kind is attached, see
`reachable_listeners_exclusive`); a Reset click needs the button, which is there
while the verdict is shown; the position callback is called at most once. -/
def dispatch (w : World) (event : Event) : World :=
  match event with
  | Event.mapClick latLng =>
    let w1 := if w.originListener then onOriginClick latLng w else w
    destinationClicks latLng w.destinationListeners w1
  | Event.currentPosition latitude longitude =>
    if w.geolocationPending then
      onCurrentPosition latitude longitude { w with geolocationPending := false }
    else w
  | Event.resetClick =>
    match w.msg with
    | Message.verdict _ _ _ => onResetClick w
    | _ => w
  | Event.settle env =>
    match w.resolving with
    | [] => w
    | (origin, destination) :: rest =>
      finishSettled env origin destination { w with resolving := rest }

/-- The delivery of a sequence of events, in order. -/
def run (w : World) (events : List Event) : World :=
  events.foldl dispatch w

/-- The page when `bootstrap` is called: nothing stored, nothing registered. -/
def initialWorld (hasGeolocation : Bool) : World :=
  { userOrigin := none, userDestination := none, rendererOnMap := true,
    rendererDirections := none, mapCenter := { lat := 504501 / 10000, lng := 305234 / 10000 },
    markers := [], msg := Message.blank, errorShown := false, console := [],
    hasGeolocation := hasGeolocation, originPromise := PromiseState.pending,
    originListener := false, geolocationPending := false, destinationListeners := 0,
    resolving := [], unhandled := 0 }

/-- The function `bootstrap` of the source, as far as the workflow goes: the first
step is entered on the initial page. -/
def bootstrap (hasGeolocation : Bool) : World :=
  gotoStep (some Step.step1) (initialWorld hasGeolocation)

/-! ## Predicates and examples used by the theorems -/

/-- The part of the world the acquisition of the origin owns. -/
def originView (w : World) : Option LatLng × PromiseState × Bool × List LatLng :=
  (w.userOrigin, w.originPromise, w.originListener, w.markers)

/-- The two points the workflow stores. -/
def storedPoints (w : World) : Option LatLng × Option LatLng :=
  (w.userOrigin, w.userDestination)

/-- The origin has been acquired as `p`: the promise of `getUserLocation` is
fulfilled with `p`, its listener is detached, `p` is stored, and `markers` are the
markers on the map. -/
def OriginAcquired (p : LatLng) (markers : List LatLng) (w : World) : Prop :=
  originView w = (some p, PromiseState.fulfilled p, false, markers)

/-- A state the page reaches from `bootstrap` by some sequence of events. -/
def Reachable (w : World) : Prop :=
  ∃ (hasGeolocation : Bool) (events : List Event), w = run (bootstrap hasGeolocation) events

/-- Whether the message is a verdict, the content with the Reset button. -/
def Message.isVerdict : Message → Bool
  | Message.verdict _ _ _ => true
  | _ => false

/-- What holds of every reachable state: while the listener of `getUserLocation` is
attached, and while no origin is stored, the page still asks for the origin and
nothing of the later steps is registered. -/
def WorkflowInv (w : World) : Prop :=
  (w.originListener = true →
    w.msg = Message.askOrigin ∧ w.resolving = [] ∧ w.destinationListeners = 0) ∧
  (w.userOrigin = none →
    w.msg.isVerdict = false ∧ w.resolving = [] ∧ w.destinationListeners = 0)

/-- Providers for the examples: every route request is answered with `status` and
one route of one leg lasting `transit` seconds; both ride-hail endpoints answer
200 with the given lists. -/
def exampleProviders (status : DirectionsStatus) (transit : ℚ) (prices : List Price)
    (times : List Time) : Providers :=
  { route := fun _ =>
      { status := status,
        result := some { routes := [{ legs := [{ duration := some { value := transit } }] }] } },
    fetchPrice := fun _ =>
      .ok { status := 200, statusText := "OK", json := .ok { prices := prices } },
    fetchTime := fun _ =>
      .ok { status := 200, statusText := "OK", json := .ok { times := times } } }

/-- Providers for the examples whose transit request is answered `ZERO_RESULTS`
while the driving request and both ride-hail endpoints succeed. -/
def exampleNoTransit : Providers :=
  { exampleProviders DirectionsStatus.OK 1200 [⟨600⟩] [⟨240⟩] with
    route := fun request =>
      if request.travelMode = TravelMode.TRANSIT then
        { status := DirectionsStatus.ZERO_RESULTS, result := none }
      else
        { status := DirectionsStatus.OK,
          result := some { routes := [{ legs := [{ duration := some { value := 700 } }] }] } } }

/-- A session for the examples: origin and destination are chosen by clicks, then
the providers answer with a transit leg of 1200 seconds and no ride-hail price. -/
def exampleSession : World :=
  run (bootstrap true)
    [Event.mapClick ⟨0, 0⟩, Event.mapClick ⟨1, 1⟩,
     Event.settle (exampleProviders DirectionsStatus.OK 1200 [] [⟨240⟩])]

/-! ## The resolver: theorems -/

/-- C1, at the failing input: with a transit duration of 1200 seconds and a ride-hail
duration of 0 seconds, both present and the ride-hail one strictly lower,
`calculateOptimalTransport` returns SUBWAY, because `!uberRouteDuration` is true of `0`. -/
theorem calculateOptimalTransport_zero_rideHail_is_subway :
    (0 : ℚ) ≤ 0 ∧ (0 : ℚ) < 1200 ∧
      calculateOptimalTransport (some 1200) (some 0) = some TransportType.SUBWAY := by
  refine ⟨le_refl _, by norm_num, ?_⟩
  simp [calculateOptimalTransport, jsNot]

/-- A ride-hail duration of zero is treated as absent whatever the transit duration is. -/
theorem calculateOptimalTransport_zero_rideHail (transitDuration : ℚ) :
    calculateOptimalTransport (some transitDuration) (some 0)
      = calculateOptimalTransport (some transitDuration) none := by
  simp [calculateOptimalTransport, jsNot]

/-- A strictly lower ride-hail duration wins when it is not zero. -/
theorem calculateOptimalTransport_rideHail_lt_of_pos (transitDuration rideHailDuration : ℚ)
    (hpos : 0 < rideHailDuration) (hlt : rideHailDuration < transitDuration) :
    calculateOptimalTransport (some transitDuration) (some rideHailDuration)
      = some TransportType.UBER := by
  have h0 : rideHailDuration ≠ 0 := ne_of_gt hpos
  simp [calculateOptimalTransport, jsNot, jsLe, toNumber, h0, hlt]

/-- C2: for present durations, both non-negative, with the transit duration less than
or equal to the ride-hail duration, `calculateOptimalTransport` returns SUBWAY; equal
durations are the case of a tie. -/
theorem calculateOptimalTransport_transit_le (transitDuration rideHailDuration : ℚ)
    (_htransit : 0 ≤ transitDuration) (_hrideHail : 0 ≤ rideHailDuration)
    (hle : transitDuration ≤ rideHailDuration) :
    calculateOptimalTransport (some transitDuration) (some rideHailDuration)
      = some TransportType.SUBWAY := by
  simp [calculateOptimalTransport, jsLe, toNumber, hle]

/-- C2 at a tie of 900 seconds. -/
theorem calculateOptimalTransport_transit_le_witness :
    (0 : ℚ) ≤ 900 ∧ (900 : ℚ) ≤ 900 ∧
      calculateOptimalTransport (some 900) (some 900) = some TransportType.SUBWAY :=
  ⟨by norm_num, le_refl _,
    calculateOptimalTransport_transit_le 900 900 (by norm_num) (by norm_num) (le_refl _)⟩

/-- C3: when only the transit duration is present the result is SUBWAY, when only the
ride-hail duration is present the result is UBER, for every value of the present
duration, zero included. -/
theorem calculateOptimalTransport_only_one_present (duration : ℚ) :
    calculateOptimalTransport (some duration) none = some TransportType.SUBWAY ∧
    calculateOptimalTransport none (some duration) = some TransportType.UBER := by
  simp [calculateOptimalTransport, jsNot]

/-- C4: `calculateOptimalTransport` returns `null` exactly when both durations are
`null`; on every other input it returns SUBWAY or UBER. -/
theorem calculateOptimalTransport_eq_none_iff (transitDuration rideHailDuration : Option ℚ) :
    (calculateOptimalTransport transitDuration rideHailDuration = none ↔
        transitDuration = none ∧ rideHailDuration = none) ∧
    (¬ (transitDuration = none ∧ rideHailDuration = none) →
        calculateOptimalTransport transitDuration rideHailDuration
            = some TransportType.SUBWAY ∨
        calculateOptimalTransport transitDuration rideHailDuration
            = some TransportType.UBER) := by
  cases transitDuration with
  | none =>
    cases rideHailDuration with
    | none => simp [calculateOptimalTransport]
    | some r => simp [calculateOptimalTransport, jsNot]
  | some t =>
    cases rideHailDuration with
    | none => simp [calculateOptimalTransport, jsNot]
    | some r =>
      by_cases h : (jsNot (some r) || jsLe (some t) (some r)) = true
      · simp [calculateOptimalTransport, h]
      · simp [calculateOptimalTransport, h]

/-! ## The ride-hail duration estimate: theorems -/

/-- Once the accumulator holds a number, the loop of the source is the plain fold. -/
theorem foldl_avgStep_some (values : List ℚ) (start : ℚ) :
    values.foldl avgStep (some start)
      = some (values.foldl (fun e w => (e + w) / 2) start) := by
  induction values generalizing start with
  | nil => rfl
  | cons v rest ih => simpa [List.foldl, avgStep] using ih ((start + v) / 2)

/-- The loop of the source, started at `null`, computes the running average. -/
theorem foldl_avgStep_eq_runningAverage (values : List ℚ) :
    values.foldl avgStep none = runningAverage values := by
  cases values with
  | nil => rfl
  | cons v rest =>
    simpa [List.foldl, avgStep, runningAverage] using foldl_avgStep_some rest v

/-- On all lists, empty ones included, the estimate is the sum of the two running
averages, an undefined one counting as zero. -/
theorem calculateUberRouteDuration_eq (prices : List Price) (times : List Time) :
    calculateUberRouteDuration prices times
      = toNumber (runningAverage (prices.map Price.duration))
        + toNumber (runningAverage (times.map Time.estimate)) := by
  simp only [calculateUberRouteDuration, ← foldl_avgStep_eq_runningAverage, List.foldl_map]

/-- C5: for non-empty `prices` and `times`, both running averages are defined and
`calculateUberRouteDuration` is their sum; the running average of 10, 20, 30 is 22.5
and not the arithmetic mean 20. -/
theorem calculateUberRouteDuration_eq_runningAverage (prices : List Price) (times : List Time)
    (hprices : prices ≠ []) (htimes : times ≠ []) :
    (∃ trip wait : ℚ,
        runningAverage (prices.map Price.duration) = some trip ∧
        runningAverage (times.map Time.estimate) = some wait ∧
        calculateUberRouteDuration prices times = trip + wait) ∧
    runningAverage [10, 20, 30] = some (45 / 2) ∧
    runningAverage [10, 20, 30] ≠ some ((10 + 20 + 30) / 3) := by
  refine ⟨?_, ?_, ?_⟩
  · rw [calculateUberRouteDuration_eq]
    cases prices with
    | nil => exact absurd rfl hprices
    | cons p ps =>
      cases times with
      | nil => exact absurd rfl htimes
      | cons t ts => exact ⟨_, _, rfl, rfl, rfl⟩
  · simp [runningAverage]; norm_num
  · simp [runningAverage]; norm_num

/-- C5 at trip durations 10, 20, 30 and one pickup estimate of 4 seconds. -/
theorem calculateUberRouteDuration_eq_runningAverage_witness :
    calculateUberRouteDuration [⟨10⟩, ⟨20⟩, ⟨30⟩] [⟨4⟩] = 45 / 2 + 4 := by
  obtain ⟨⟨trip, wait, h1, h2, h3⟩, _, _⟩ :=
    calculateUberRouteDuration_eq_runningAverage [⟨10⟩, ⟨20⟩, ⟨30⟩] [⟨4⟩] (by simp) (by simp)
  simp [runningAverage] at h1 h2
  rw [h3, ← h1, ← h2]; norm_num

/-- C6: when both ride-hail responses have status 200 and parse, an empty `prices` or an
empty `times` makes `getUberRouteDuration` resolve to `null`, and two non-empty lists make
it resolve to `calculateUberRouteDuration(prices, times)`. -/
theorem getUberRouteDuration_status_200 (env : Providers) (origin destination : LatLng)
    (priceResponse : HttpResponse PriceBody) (timeResponse : HttpResponse TimeBody)
    (priceBody : PriceBody) (timeBody : TimeBody)
    (hprice : env.fetchPrice
        { start_latitude := origin.lat, start_longitude := origin.lng,
          end_latitude := destination.lat, end_longitude := destination.lng }
        = .ok priceResponse)
    (htime : env.fetchTime { start_latitude := origin.lat, start_longitude := origin.lng }
        = .ok timeResponse)
    (hpriceStatus : priceResponse.status = 200) (htimeStatus : timeResponse.status = 200)
    (hpriceJson : priceResponse.json = .ok priceBody)
    (htimeJson : timeResponse.json = .ok timeBody) :
    ((priceBody.prices = [] ∨ timeBody.times = []) →
        getUberRouteDuration env origin destination = .ok none) ∧
    ((priceBody.prices ≠ [] ∧ timeBody.times ≠ []) →
        getUberRouteDuration env origin destination
          = .ok (some (calculateUberRouteDuration priceBody.prices timeBody.times))) := by
  constructor
  · intro h
    simp [getUberRouteDuration, promiseAll2, hprice, htime, hpriceStatus, htimeStatus,
      hpriceJson, htimeJson, h]
  · intro h
    simp [getUberRouteDuration, promiseAll2, hprice, htime, hpriceStatus, htimeStatus,
      hpriceJson, htimeJson, h.1, h.2]

/-- C6 with no price and one pickup time: the estimate is `null`, not a failure. -/
theorem getUberRouteDuration_status_200_witness :
    getUberRouteDuration (exampleProviders DirectionsStatus.OK 1200 [] [⟨240⟩]) ⟨0, 0⟩ ⟨1, 1⟩
      = .ok none :=
  (getUberRouteDuration_status_200 (exampleProviders DirectionsStatus.OK 1200 [] [⟨240⟩])
    ⟨0, 0⟩ ⟨1, 1⟩
    { status := 200, statusText := "OK", json := .ok { prices := [] } }
    { status := 200, statusText := "OK", json := .ok { times := [⟨240⟩] } }
    { prices := [] } { times := [⟨240⟩] } rfl rfl rfl rfl rfl rfl).1 (Or.inl rfl)

/-! ## The Resolve procedure: theorems -/

/-- A transit status other than OK rejects the join, so the callback of the join does
not run and the world is untouched. -/
theorem ensureOptimalTransport_of_status_ne (env : Providers) (origin destination : LatLng)
    (w : World)
    (hstatus : (getSubwayRoute env origin destination).status ≠ DirectionsStatus.OK) :
    ∃ reason, ensureOptimalTransportAll env origin destination = .error reason ∧
      ensureOptimalTransport env origin destination w = (w, .error reason) := by
  refine ⟨Rejection.subwayStatus, ?_, ?_⟩
  · simp [ensureOptimalTransportAll, subwayRoutePromise, promiseAll3, hstatus]
  · simp [ensureOptimalTransport, ensureOptimalTransportAll, subwayRoutePromise, promiseAll3,
      hstatus]

/-- The callback of the join touches the world only when it returns a verdict. -/
theorem ensureOptimalTransportThen_error
    (joined : DirectionsResponse × DirectionsResponse × Option ℚ) (w : World) (e : Rejection)
    (h : firstLegDuration joined.1 = .error e) :
    ensureOptimalTransportThen joined w = (w, .error e) := by
  obtain ⟨subwayRouteResponse, uberRouteResponse, uberRouteDuration⟩ := joined
  simp only [ensureOptimalTransportThen]
  simp only [] at h
  rw [h]

/-- A fulfilled join carries the response of `getSubwayRoute`, whose status is OK. -/
theorem ensureOptimalTransportAll_ok (env : Providers) (origin destination : LatLng)
    (joined : DirectionsResponse × DirectionsResponse × Option ℚ)
    (h : ensureOptimalTransportAll env origin destination = .ok joined) :
    joined.1 = getSubwayRoute env origin destination ∧
    (getSubwayRoute env origin destination).status = DirectionsStatus.OK := by
  unfold ensureOptimalTransportAll subwayRoutePromise uberRoutePromise at h
  by_cases hs : (getSubwayRoute env origin destination).status = DirectionsStatus.OK
  · by_cases hu : (getUberRoute env origin destination).status = DirectionsStatus.OK
    · cases hd : getUberRouteDuration env origin destination with
      | error e => simp [promiseAll3, hs, hu, hd] at h
      | ok uberRouteDuration =>
        simp [promiseAll3, hs, hu, hd] at h
        exact ⟨by rw [← h], hs⟩
    · simp [promiseAll3, hs, hu] at h
  · simp [promiseAll3, hs] at h

/-- A transit response without a first leg duration makes the Resolve procedure reject. -/
theorem ensureOptimalTransport_of_firstLeg_error (env : Providers)
    (origin destination : LatLng) (w : World) (e : Rejection)
    (h : firstLegDuration (getSubwayRoute env origin destination) = .error e) :
    ∃ reason, ensureOptimalTransport env origin destination w = (w, .error reason) := by
  unfold ensureOptimalTransport
  cases hall : ensureOptimalTransportAll env origin destination with
  | error reason => exact ⟨reason, rfl⟩
  | ok joined =>
    have hj := (ensureOptimalTransportAll_ok env origin destination joined hall).1
    exact ⟨e, ensureOptimalTransportThen_error joined w e (by rw [hj]; exact h)⟩

/-- A successful Resolve had an OK transit response with a first leg duration, which is
the transit duration of the verdict and the first argument of the resolver. -/
theorem ensureOptimalTransport_ok (env : Providers) (origin destination : LatLng)
    (w w1 : World) (verdict : Verdict)
    (h : ensureOptimalTransport env origin destination w = (w1, .ok verdict)) :
    (getSubwayRoute env origin destination).status = DirectionsStatus.OK ∧
    ∃ value, firstLegDuration (getSubwayRoute env origin destination) = .ok value ∧
      verdict.subwayDuration = some value ∧
      verdict.optimalTransport
        = calculateOptimalTransport (some value) verdict.uberDuration := by
  unfold ensureOptimalTransport at h
  cases hall : ensureOptimalTransportAll env origin destination with
  | error reason => simp [hall] at h
  | ok joined =>
    obtain ⟨hj, hs⟩ := ensureOptimalTransportAll_ok env origin destination joined hall
    refine ⟨hs, ?_⟩
    obtain ⟨subwayRouteResponse, uberRouteResponse, uberRouteDuration⟩ := joined
    simp only [] at hj
    subst hj
    simp only [hall, ensureOptimalTransportThen] at h
    cases hf : firstLegDuration (getSubwayRoute env origin destination) with
    | error e => simp [hf] at h
    | ok value =>
      simp [hf] at h
      refine ⟨value, rfl, ?_, ?_⟩
      · rw [← h.2]
      · rw [← h.2]

/-- With a present transit duration the resolver returns SUBWAY or UBER. -/
theorem calculateOptimalTransport_some_left (value : ℚ) (uberRouteDuration : Option ℚ) :
    calculateOptimalTransport (some value) uberRouteDuration = some TransportType.SUBWAY ∨
    calculateOptimalTransport (some value) uberRouteDuration = some TransportType.UBER := by
  by_cases h : (jsNot uberRouteDuration || jsLe (some value) uberRouteDuration) = true
  · simp [calculateOptimalTransport, h]
  · simp [calculateOptimalTransport, h]

/-- C7: when the transit routing response has a status other than OK,
`ensureOptimalTransport` rejects whatever the driving route request and the ride-hail
estimator return: the join itself rejects, so its callback, the only caller of
`calculateOptimalTransport`, does not run, the world is untouched, and the step ends in
the rejection callback of `gotoStep` with the error shown and no verdict. -/
theorem ensureOptimalTransport_subway_not_OK (env : Providers) (origin destination : LatLng)
    (w : World)
    (hstatus : (getSubwayRoute env origin destination).status ≠ DirectionsStatus.OK) :
    ∃ reason : Rejection,
      ensureOptimalTransportAll env origin destination = .error reason ∧
      ensureOptimalTransport env origin destination w = (w, .error reason) ∧
      finishSettled env origin destination w = gotoStepRejected reason w ∧
      (finishSettled env origin destination w).msg = w.msg ∧
      (finishSettled env origin destination w).errorShown = true := by
  obtain ⟨reason, hall, h⟩ :=
    ensureOptimalTransport_of_status_ne env origin destination w hstatus
  have h2 : finishSettled env origin destination w = gotoStepRejected reason w := by
    simp [finishSettled, h]
  refine ⟨reason, hall, h, h2, ?_, ?_⟩ <;> rw [h2] <;> rfl

/-- C7 where the transit request is answered `ZERO_RESULTS` while the driving request
succeeds and the ride-hail estimator yields a duration: the error is shown and the
message is not a verdict. -/
theorem ensureOptimalTransport_subway_not_OK_witness :
    getUberRouteDuration exampleNoTransit ⟨0, 0⟩ ⟨1, 1⟩ = .ok (some (600 + 240)) ∧
    (finishSettled exampleNoTransit ⟨0, 0⟩ ⟨1, 1⟩ (initialWorld true)).msg = Message.blank ∧
    (finishSettled exampleNoTransit ⟨0, 0⟩ ⟨1, 1⟩ (initialWorld true)).errorShown = true :=
  have h := ensureOptimalTransport_subway_not_OK exampleNoTransit ⟨0, 0⟩ ⟨1, 1⟩
    (initialWorld true) (by simp [getSubwayRoute, exampleNoTransit])
  match h with
  | ⟨_, _, _, _, hmsg, herror⟩ =>
    ⟨by simp [getUberRouteDuration, exampleNoTransit, exampleProviders, promiseAll2,
        calculateUberRouteDuration, avgStep, toNumber], hmsg, herror⟩

/-- C10: a successful `ensureOptimalTransport` returns a verdict whose transit duration is
the duration value of the first leg of the first route, hence present, and whose winner
is SUBWAY or UBER; a transit response with a status other than OK, with no route, or
with a first route without legs makes `ensureOptimalTransport` reject. -/
theorem ensureOptimalTransport_verdict_has_transit (env : Providers)
    (origin destination : LatLng) (w : World) :
    (∀ (w1 : World) (verdict : Verdict),
      ensureOptimalTransport env origin destination w = (w1, .ok verdict) →
      ∃ value : ℚ,
        firstLegDuration (getSubwayRoute env origin destination) = .ok value ∧
        verdict.subwayDuration = some value ∧
        verdict.subwayDuration ≠ none ∧
        (verdict.optimalTransport = some TransportType.SUBWAY ∨
          verdict.optimalTransport = some TransportType.UBER) ∧
        verdict.optimalTransport ≠ none) ∧
    (((getSubwayRoute env origin destination).status ≠ DirectionsStatus.OK ∨
      (∃ result, (getSubwayRoute env origin destination).result = some result ∧
        result.routes = []) ∨
      (∃ result route rest, (getSubwayRoute env origin destination).result = some result ∧
        result.routes = route :: rest ∧ route.legs = [])) →
      ∃ reason, ensureOptimalTransport env origin destination w = (w, .error reason)) := by
  constructor
  · intro w1 verdict h
    obtain ⟨_, value, hf, hv, ht⟩ := ensureOptimalTransport_ok env origin destination w w1 verdict h
    have hwin := calculateOptimalTransport_some_left value verdict.uberDuration
    rw [← ht] at hwin
    refine ⟨value, hf, hv, by rw [hv]; simp, hwin, ?_⟩
    rcases hwin with h1 | h1 <;> rw [h1] <;> simp
  · rintro (hs | ⟨result, hr, hroutes⟩ | ⟨result, route, rest, hr, hroutes, hlegs⟩)
    · obtain ⟨reason, _, h⟩ := ensureOptimalTransport_of_status_ne env origin destination w hs
      exact ⟨reason, h⟩
    · exact ensureOptimalTransport_of_firstLeg_error env origin destination w
        Rejection.typeError (by simp [firstLegDuration, hr, hroutes])
    · exact ensureOptimalTransport_of_firstLeg_error env origin destination w
        Rejection.typeError (by simp [firstLegDuration, hr, hroutes, hlegs])

/-- C10 on a session that succeeds: the verdict of a transit leg of 1200 seconds with no
ride-hail price has transit duration 1200 and winner SUBWAY. -/
theorem ensureOptimalTransport_verdict_has_transit_witness :
    ∃ value : ℚ,
      firstLegDuration
          (getSubwayRoute (exampleProviders DirectionsStatus.OK 1200 [] [⟨240⟩]) ⟨0, 0⟩ ⟨1, 1⟩)
        = .ok value ∧
      (some 1200 : Option ℚ) = some value :=
  have h := (ensureOptimalTransport_verdict_has_transit
    (exampleProviders DirectionsStatus.OK 1200 [] [⟨240⟩]) ⟨0, 0⟩ ⟨1, 1⟩ (initialWorld true)).1
      { initialWorld true with
        rendererDirections :=
          some { routes := [{ legs := [{ duration := some { value := 1200 } }] }] } }
      { subwayDuration := some 1200, uberDuration := none,
        optimalTransport := some TransportType.SUBWAY }
      rfl
  match h with
  | ⟨value, hf, hv, _, _, _⟩ => ⟨value, hf, hv⟩

/-! ## The workflow: frame lemmas -/

/-- Equal origin views have equal components. -/
theorem originView_fields (a b : World) (h : originView a = originView b) :
    a.userOrigin = b.userOrigin ∧ a.originPromise = b.originPromise ∧
    a.originListener = b.originListener ∧ a.markers = b.markers := by
  simpa [originView] using h

/-- The callback of `Promise.all` touches the renderer only. -/
theorem originView_ensureOptimalTransport (env : Providers) (origin destination : LatLng)
    (w : World) :
    originView (ensureOptimalTransport env origin destination w).1 = originView w := by
  unfold ensureOptimalTransport
  split
  · rfl
  · unfold ensureOptimalTransportThen
    simp only []
    split
    · rfl
    · split <;> rfl

/-- Entering `step2` leaves the origin view. -/
theorem originView_step2 (w : World) : originView (step2 w) = originView w := rfl

/-- Entering `finish` leaves the origin view. -/
theorem originView_finish (w : World) : originView (finish w) = originView w := by
  unfold finish
  simp only []
  split <;> rfl

/-- The callback of `step2` leaves the origin view. -/
theorem originView_step2Then (location : LatLng) (w : World) :
    originView (step2Then location w) = originView w := by
  simp only [step2Then, gotoStep, originView_finish]
  rfl

/-- Clicks on destination listeners leave the origin view. -/
theorem originView_destinationClicks (latLng : LatLng) (n : Nat) (w : World) :
    originView (destinationClicks latLng n w) = originView w := by
  induction n generalizing w with
  | zero => rfl
  | succ n ih =>
    simp only [destinationClicks, ih, onDestinationClick, originView_step2Then]
    rfl

/-- The settling of a Resolve leaves the origin view. -/
theorem originView_finishSettled (env : Providers) (origin destination : LatLng) (w : World) :
    originView (finishSettled env origin destination w) = originView w := by
  have h := originView_ensureOptimalTransport env origin destination w
  unfold finishSettled
  split
  · next w1 response heq => rw [heq] at h; rw [← h]; rfl
  · next w1 e heq => rw [heq] at h; rw [← h]; rfl

/-- The callback of `Promise.all` leaves the stored points. -/
theorem storedPoints_ensureOptimalTransport (env : Providers) (origin destination : LatLng)
    (w : World) :
    storedPoints (ensureOptimalTransport env origin destination w).1 = storedPoints w := by
  unfold ensureOptimalTransport
  split
  · rfl
  · unfold ensureOptimalTransportThen
    simp only []
    split
    · rfl
    · split <;> rfl

/-- The settling of a Resolve leaves the stored points. -/
theorem storedPoints_finishSettled (env : Providers) (origin destination : LatLng)
    (w : World) :
    storedPoints (finishSettled env origin destination w) = storedPoints w := by
  have h := storedPoints_ensureOptimalTransport env origin destination w
  unfold finishSettled
  split
  · next w1 response heq => rw [heq] at h; rw [← h]; rfl
  · next w1 e heq => rw [heq] at h; rw [← h]; rfl

/-- Entering `finish` leaves the stored points. -/
theorem storedPoints_finish (w : World) : storedPoints (finish w) = storedPoints w := by
  unfold finish
  simp only []
  split <;> rfl

/-- A map click with the origin listener attached and no destination listener runs the
origin listener only. -/
theorem dispatch_mapClick_origin (w : World) (latLng : LatLng)
    (hl : w.originListener = true) (hd : w.destinationListeners = 0) :
    dispatch w (Event.mapClick latLng) = onOriginClick latLng w := by
  unfold dispatch
  simp only [hl, if_true]
  rw [hd]
  rfl

/-- A map click with the origin listener detached runs the destination listeners only. -/
theorem dispatch_mapClick_destination (w : World) (latLng : LatLng)
    (hl : w.originListener = false) :
    dispatch w (Event.mapClick latLng)
      = destinationClicks latLng w.destinationListeners w := by
  unfold dispatch
  simp [hl]

/-- A listener that is not attached is detached. -/
theorem originListener_eq_false_of_ne (w : World) (h : ¬ w.originListener = true) :
    w.originListener = false := by
  simpa using h

/-! ## The workflow: once acquired, the origin stays -/

/-- Every event preserves an acquired origin. -/
theorem originAcquired_dispatch (p : LatLng) (markers : List LatLng) (w : World)
    (event : Event) (h : OriginAcquired p markers w) :
    OriginAcquired p markers (dispatch w event) := by
  have hl : w.originListener = false := by
    have := congrArg (fun v => v.2.2.1) h
    simpa [originView] using this
  have hp : w.originPromise = PromiseState.fulfilled p := by
    have := congrArg (fun v => v.2.1) h
    simpa [originView] using this
  unfold OriginAcquired at *
  cases event with
  | mapClick latLng =>
    rw [dispatch_mapClick_destination w latLng hl, originView_destinationClicks]
    exact h
  | currentPosition latitude longitude =>
    simp only [dispatch]
    split
    · simp only [onCurrentPosition, resolveUserLocation, hp]
      rw [← h]; simp [originView, hl, hp]
    · exact h
  | resetClick =>
    simp only [dispatch]
    split
    · simpa [onResetClick, gotoStep, originView_step2] using h
    · exact h
  | settle env =>
    simp only [dispatch]
    split
    · exact h
    · rw [originView_finishSettled]; exact h

/-- Every sequence of events preserves an acquired origin. -/
theorem originAcquired_run (p : LatLng) (markers : List LatLng) (events : List Event)
    (w : World) (h : OriginAcquired p markers w) :
    OriginAcquired p markers (run w events) := by
  induction events generalizing w with
  | nil => exact h
  | cons event rest ih => exact ih _ (originAcquired_dispatch p markers w event h)

/-- A map click while the promise of `getUserLocation` is pending and its listener is
attached acquires the clicked point. -/
theorem originAcquired_click (w : World) (p : LatLng)
    (hpromise : w.originPromise = PromiseState.pending) (hlistener : w.originListener = true) :
    OriginAcquired p (w.markers ++ [p]) (dispatch w (Event.mapClick p)) := by
  unfold OriginAcquired
  simp only [dispatch, hlistener, originView_destinationClicks, if_true, onOriginClick,
    resolveUserLocation, hpromise, step1Then, gotoStep, originView_step2]
  rfl

/-- C8: while the promise of `getUserLocation` is pending with both its sources pending,
a map click at `p` fixes the origin: after any later events `userOrigin` is `p` and the
callback of `step1` has run once (one marker added, at `p`), and a position delivered
later changes nothing of the world but the fact that the position callback has been
called, so it neither reassigns the origin nor enters `step2` again. -/
theorem getUserLocation_click_first (w : World) (p : LatLng) (events : List Event)
    (hpromise : w.originPromise = PromiseState.pending)
    (hlistener : w.originListener = true)
    (_hgeolocation : w.geolocationPending = true) :
    (run (dispatch w (Event.mapClick p)) events).userOrigin = some p ∧
    (run (dispatch w (Event.mapClick p)) events).markers = w.markers ++ [p] ∧
    ∀ latitude longitude : ℚ,
      dispatch (run (dispatch w (Event.mapClick p)) events)
          (Event.currentPosition latitude longitude)
        = { run (dispatch w (Event.mapClick p)) events with geolocationPending := false } := by
  have h := originAcquired_run p _ events _ (originAcquired_click w p hpromise hlistener)
  generalize run (dispatch w (Event.mapClick p)) events = w1 at h
  unfold OriginAcquired originView at h
  simp only [Prod.mk.injEq] at h
  obtain ⟨h1, h2, h3, h4⟩ := h
  refine ⟨h1, h4, ?_⟩
  intro latitude longitude
  simp only [dispatch, onCurrentPosition, resolveUserLocation, h2]
  split
  · next hg => cases w1; simp_all
  · next hg => cases w1; simp_all

/-- C8 after `bootstrap` on a device with geolocation: the click at (1, 2) is followed by
the position (5, 6), and the origin is still (1, 2) with one marker. -/
theorem getUserLocation_click_first_witness :
    (bootstrap true).originPromise = PromiseState.pending ∧
    (bootstrap true).originListener = true ∧
    (bootstrap true).geolocationPending = true ∧
    (run (dispatch (bootstrap true) (Event.mapClick ⟨1, 2⟩))
        [Event.currentPosition 5 6]).userOrigin = some ⟨1, 2⟩ ∧
    (run (dispatch (bootstrap true) (Event.mapClick ⟨1, 2⟩))
        [Event.currentPosition 5 6]).markers = (bootstrap true).markers ++ [⟨1, 2⟩] :=
  have h := getUserLocation_click_first (bootstrap true) ⟨1, 2⟩ [Event.currentPosition 5 6]
    rfl rfl rfl
  ⟨rfl, rfl, rfl, h.1, h.2.1⟩

/-! ## The workflow: what every reachable state satisfies -/

/-- A world that agrees on the origin view with one whose origin is stored and whose
origin listener is detached satisfies the invariant. -/
theorem workflowInv_of_view (a b : World) (hv : originView a = originView b)
    (hl : b.originListener = false) (ho : b.userOrigin ≠ none) : WorkflowInv a := by
  obtain ⟨h1, _, h3, _⟩ := originView_fields a b hv
  constructor
  · intro h; rw [h3, hl] at h; cases h
  · intro h; rw [h1] at h; exact absurd h ho

/-- The `resolve` of the promise of `getUserLocation` preserves the invariant. -/
theorem workflowInv_resolveUserLocation (location : LatLng) (w : World)
    (hl : w.originListener = false)
    (hB : w.userOrigin = none →
      w.msg.isVerdict = false ∧ w.resolving = [] ∧ w.destinationListeners = 0) :
    WorkflowInv (resolveUserLocation location w) := by
  unfold resolveUserLocation
  split
  · constructor
    · intro h
      have h2 : w.originListener = true := h
      rw [hl] at h2; cases h2
    · intro h
      have h2 : some location = none := h
      cases h2
  · exact ⟨fun h => (by rw [hl] at h; cases h), hB⟩

/-- Every event preserves the invariant. -/
theorem workflowInv_dispatch (w : World) (event : Event) (h : WorkflowInv w) :
    WorkflowInv (dispatch w event) := by
  obtain ⟨hA, hB⟩ := h
  cases event with
  | mapClick latLng =>
    by_cases hl : w.originListener = true
    · rw [dispatch_mapClick_origin w latLng hl (hA hl).2.2]
      exact workflowInv_resolveUserLocation latLng _ rfl hB
    · have hl2 := originListener_eq_false_of_ne w hl
      rw [dispatch_mapClick_destination w latLng hl2]
      by_cases ho : w.userOrigin = none
      · rw [(hB ho).2.2]
        exact ⟨hA, hB⟩
      · exact workflowInv_of_view _ w (originView_destinationClicks _ _ _) hl2 ho
  | currentPosition latitude longitude =>
    simp only [dispatch]
    split
    · exact workflowInv_resolveUserLocation _ _ rfl hB
    · exact ⟨hA, hB⟩
  | resetClick =>
    simp only [dispatch]
    split
    · next s u t hm =>
      have hl : w.originListener = false := by
        apply originListener_eq_false_of_ne
        intro hl
        have := (hA hl).1
        rw [hm] at this; cases this
      have ho : w.userOrigin ≠ none := by
        intro ho
        have := (hB ho).1
        rw [hm] at this; cases this
      exact workflowInv_of_view _ w (originView_step2 w) hl ho
    · exact ⟨hA, hB⟩
  | settle env =>
    simp only [dispatch]
    split
    · exact ⟨hA, hB⟩
    · next origin destination rest hr =>
      have hl : w.originListener = false := by
        apply originListener_eq_false_of_ne
        intro hl
        have := (hA hl).2.1
        rw [hr] at this; cases this
      have ho : w.userOrigin ≠ none := by
        intro ho
        have := (hB ho).2.1
        rw [hr] at this; cases this
      exact workflowInv_of_view _ { w with resolving := rest }
        (originView_finishSettled env origin destination _) hl ho

/-- Every sequence of events preserves the invariant. -/
theorem workflowInv_run (events : List Event) (w : World) (h : WorkflowInv w) :
    WorkflowInv (run w events) := by
  induction events generalizing w with
  | nil => exact h
  | cons event rest ih => exact ih _ (workflowInv_dispatch w event h)

/-- Every reachable state satisfies the invariant. -/
theorem workflowInv_of_reachable (w : World) (h : Reachable w) : WorkflowInv w := by
  obtain ⟨g, events, rfl⟩ := h
  apply workflowInv_run
  constructor <;> intro _ <;> simp [bootstrap, gotoStep, step1, getUserLocation, showMsg,
    initialWorld, Message.isVerdict]

/-- In a reachable state at most one kind of click listener is attached to the map. -/
theorem reachable_listeners_exclusive (w : World) (h : Reachable w)
    (hl : w.originListener = true) : w.destinationListeners = 0 :=
  ((workflowInv_of_reachable w h).1 hl).2.2

/-! ## The workflow: reset -/

/-- A destination click with a stored origin stores the destination and starts a
Resolve with the stored origin and the clicked point. -/
theorem onDestinationClick_acquired (q o : LatLng) (v : World) (ho : v.userOrigin = some o) :
    onDestinationClick q v
      = { v with destinationListeners := v.destinationListeners - 1,
                 userDestination := some q, msg := Message.thinking,
                 resolving := v.resolving ++ [(o, q)] } := by
  simp [onDestinationClick, step2Then, gotoStep, finish, showMsg, ho]

/-- The effect of a click on `n` destination listeners with a stored origin. -/
theorem destinationClicks_acquired (q o : LatLng) (n : Nat) (v : World)
    (ho : v.userOrigin = some o) :
    (destinationClicks q n v).userOrigin = some o ∧
    (destinationClicks q n v).userDestination
      = (if n = 0 then v.userDestination else some q) ∧
    (destinationClicks q n v).resolving = v.resolving ++ List.replicate n (o, q) := by
  induction n generalizing v with
  | zero => simp [destinationClicks, ho]
  | succ n ih =>
    have h := ih (onDestinationClick q v)
      (by rw [onDestinationClick_acquired q o v ho]; exact ho)
    simp only [destinationClicks]
    refine ⟨h.1, ?_, ?_⟩
    · rw [h.2.1, onDestinationClick_acquired q o v ho]
      simp
    · rw [h.2.2, onDestinationClick_acquired q o v ho]
      simp [List.replicate_succ]

/-- C9: in a reachable state that shows a verdict, a click on Reset enters `step2`; in
every state, entering `step2`, its callback, entering `finish` and the settling of the
Resolve leave `userOrigin` as it is, and of the two stored points only `userDestination`
is written, by the callback of `step2`; so after the reset the origin is the one stored
before, and a click at `q` stores `q` as destination and starts a Resolve with the stored
origin and `q`. -/
theorem reset_keeps_origin (w : World) (subwayDuration uberDuration : Option ℚ)
    (optimalTransport : Option TransportType) (hreach : Reachable w)
    (hmsg : w.msg = Message.verdict subwayDuration uberDuration optimalTransport) :
    dispatch w Event.resetClick = gotoStep (some Step.step2) w ∧
    (∀ v : World,
      (gotoStep (some Step.step2) v).userOrigin = v.userOrigin ∧
      (gotoStep (some Step.step2) v).userDestination = v.userDestination) ∧
    (∀ (v : World) (location : LatLng),
      (step2Then location v).userOrigin = v.userOrigin ∧
      (step2Then location v).userDestination = some location) ∧
    (∀ v : World,
      (gotoStep (some Step.finish) v).userOrigin = v.userOrigin ∧
      (gotoStep (some Step.finish) v).userDestination = v.userDestination) ∧
    (∀ (v : World) (env : Providers) (origin destination : LatLng),
      (finishSettled env origin destination v).userOrigin = v.userOrigin ∧
      (finishSettled env origin destination v).userDestination = v.userDestination) ∧
    ∃ origin : LatLng, w.userOrigin = some origin ∧
      ∀ q : LatLng,
        (dispatch (dispatch w Event.resetClick) (Event.mapClick q)).userOrigin
          = some origin ∧
        (dispatch (dispatch w Event.resetClick) (Event.mapClick q)).userDestination
          = some q ∧
        (dispatch (dispatch w Event.resetClick) (Event.mapClick q)).resolving
          = w.resolving ++ List.replicate (w.destinationListeners + 1) (origin, q) := by
  have hreset : dispatch w Event.resetClick = gotoStep (some Step.step2) w := by
    simp [dispatch, hmsg, onResetClick]
  have hfinish : ∀ v : World,
      storedPoints (gotoStep (some Step.finish) v) = storedPoints v :=
    fun v => storedPoints_finish v
  refine ⟨hreset, fun v => ⟨rfl, rfl⟩, ?_, ?_, ?_, ?_⟩
  · intro v location
    have h := hfinish { v with userDestination := some location }
    simp only [storedPoints, Prod.mk.injEq] at h
    exact ⟨h.1, h.2⟩
  · intro v
    have h := hfinish v
    simp only [storedPoints, Prod.mk.injEq] at h
    exact h
  · intro v env origin destination
    have h := storedPoints_finishSettled env origin destination v
    simp only [storedPoints, Prod.mk.injEq] at h
    exact h
  · obtain ⟨hA, hB⟩ := workflowInv_of_reachable w hreach
    have hl : w.originListener = false := by
      apply originListener_eq_false_of_ne
      intro hl
      have := (hA hl).1
      rw [hmsg] at this; cases this
    have ho : w.userOrigin ≠ none := by
      intro ho
      have := (hB ho).1
      rw [hmsg] at this; cases this
    obtain ⟨origin, horigin⟩ := Option.ne_none_iff_exists'.mp ho
    refine ⟨origin, horigin, ?_⟩
    intro q
    rw [hreset]
    have hl2 : (gotoStep (some Step.step2) w).originListener = false := hl
    rw [dispatch_mapClick_destination _ q hl2]
    have hn : (gotoStep (some Step.step2) w).destinationListeners
        = w.destinationListeners + 1 := rfl
    rw [hn]
    have h := destinationClicks_acquired q origin (w.destinationListeners + 1)
      (gotoStep (some Step.step2) w) horigin
    refine ⟨h.1, ?_, ?_⟩
    · rw [h.2.1]; simp
    · rw [h.2.2]; rfl

/-- C9 on the example session: origin (0, 0), destination (1, 1), verdict shown; after
Reset and a click at (2, 2) the origin is still (0, 0), the destination is (2, 2), and
the Resolve in flight is the one of (0, 0) and (2, 2). -/
theorem reset_keeps_origin_witness :
    exampleSession.msg = Message.verdict (some 1200) none (some TransportType.SUBWAY) ∧
    (dispatch (dispatch exampleSession Event.resetClick) (Event.mapClick ⟨2, 2⟩)).userOrigin
        = some ⟨0, 0⟩ ∧
    (dispatch (dispatch exampleSession Event.resetClick)
        (Event.mapClick ⟨2, 2⟩)).userDestination = some ⟨2, 2⟩ ∧
    (dispatch (dispatch exampleSession Event.resetClick) (Event.mapClick ⟨2, 2⟩)).resolving
        = [(⟨0, 0⟩, ⟨2, 2⟩)] := by
  have hmsg : exampleSession.msg
      = Message.verdict (some 1200) none (some TransportType.SUBWAY) := by decide
  have horigin : exampleSession.userOrigin = some ⟨0, 0⟩ := by decide
  have hresolving : exampleSession.resolving = [] := by decide
  have hlisteners : exampleSession.destinationListeners = 0 := by decide
  obtain ⟨_, _, _, _, _, origin, ho, h⟩ :=
    reset_keeps_origin exampleSession (some 1200) none (some TransportType.SUBWAY)
      ⟨true, _, rfl⟩ hmsg
  have heq : origin = ⟨0, 0⟩ := by
    rw [horigin] at ho
    exact (Option.some.inj ho).symm
  subst heq
  refine ⟨hmsg, (h ⟨2, 2⟩).1, (h ⟨2, 2⟩).2.1, ?_⟩
  rw [(h ⟨2, 2⟩).2.2, hresolving, hlisteners]
  rfl

end UberOrSubway
